import Mathlib

/-!
Shallow embedding of `prompt.go` from the promptui fork (package `promptui`).

The file embeds the `Prompt` data model, the per-keystroke listener and the
Enter key-filter closures defined inside `Prompt.Run`, the template
preparation function `prepareTemplates`, and the overall control flow of
`Run` itself as an executable Lean function.

External collaborators (the `ergochat/readline` line-editing engine and Go's
`text/template` engine) are abstracted behind parameters: template parsing is
a `ParseFn` argument, and the engine's blocking read is an `EngineRead`
argument giving either the buffer contents at completion or the engine error.
Rendering a compiled template against a value is abstracted to the pair
(template slot, value rendered against); the byte-level output of the
template engine is outside the repository.
-/

namespace Promptui

/-- A compiled template. Go's `text/template` compiled value is abstracted to
the source string it was parsed from; what the claims need is which slot was
compiled and rendered, not the byte output. -/
structure Tpl where
  src : String
deriving DecidableEq, Repr

/-- The external template engine's parse operation
(`template.New("").Funcs(...).Parse(src)`): may fail with a descriptive
error. Supplied as a parameter to the embedding. -/
def ParseFn := String → Except String Tpl

/-- `PromptTemplates` from prompt.go: the seven template source strings, the
function map (abstracted to an identifier, since its content lives in the
external template engine), and the compiled template fields filled in by
`prepareTemplates`. -/
structure PromptTemplates where
  Prompt : String := ""
  Confirm : String := ""
  Valid : String := ""
  Invalid : String := ""
  Success : String := ""
  Unvalidated : String := ""
  ValidationError : String := ""
  FuncMap : Option Nat := none
  prompt : Option Tpl := none
  valid : Option Tpl := none
  invalid : Option Tpl := none
  validation : Option Tpl := none
  success : Option Tpl := none
  unvalidated : Option Tpl := none
deriving DecidableEq, Repr

/-- The package-level default function map (`FuncMap` in promptui); its
contents belong to the external styling engine, so it is abstracted to an
identifier distinct from `none`. -/
def defaultFuncMap : Nat := 0

/-- The `Pointer` type (cursor glyph choice) lives in cursor.go, which is not
part of the embedded source; only its identity matters here. -/
def Pointer := Nat
deriving instance DecidableEq for Pointer

/-- A validator: Go's `ValidateFunc = func(string) error`, with `error`
modelled as `Option String` (`none` = nil error). -/
def ValidateFunc := String → Option String

/-- The `Prompt` struct from prompt.go. `Label` is `interface{}` in Go and is
used only as an opaque value handed to template rendering; it is modelled as
a `String`. `Mask` is a rune where the zero rune means no masking. -/
structure Prompt where
  Label : String := ""
  Default : String := ""
  AllowEdit : Bool := false
  Validate : Option ValidateFunc := none
  Mask : Char := Char.ofNat 0
  LazyValidation : Bool := false
  Templates : Option PromptTemplates := none
  IsConfirm : Bool := false
  IsVimMode : Bool := false
  Pointer : Pointer := (0 : Nat)

/-- Lines 147-152 of prompt.go: `validFn` is the prompt's `Validate`
function, or the always-nil validator when `Validate` is nil. -/
def Prompt.validFn (p : Prompt) : String → Option String :=
  match p.Validate with
  | some f => f
  | none => fun _ => none

/-- Which of the six template slots a render call used. `prompt` is the
prompt/confirm slot (it holds the compiled `Confirm` source when `IsConfirm`
is set, the compiled `Prompt` source otherwise). -/
inductive TTag where
  | prompt
  | valid
  | invalid
  | unvalidated
  | validation
  | success
deriving DecidableEq, Repr

/-- Keys as seen by the key filter: `readline.CharEnter`, `readline.CharCtrlJ`
or any other rune. -/
inductive Key where
  | enter
  | ctrlJ
  | char (c : Char)
deriving DecidableEq, Repr

/-- Lines 161-189 of prompt.go, the template-selection part of the
per-keystroke listener closure: with eager validation the validator runs on
the current value and selects the invalid slot on error, otherwise the valid
slot — overridden by the prompt/confirm slot when `IsConfirm` is set; with
lazy validation the unvalidated slot is selected unconditionally. These
renders are applied to `p.Label`. -/
def listenTag (p : Prompt) (curVal : String) : TTag :=
  if !p.LazyValidation then
    match p.validFn curVal with
    | some _ => .invalid
    | none => if p.IsConfirm then .prompt else .valid
  else .unvalidated

/-- Result of the key filter `FuncFilterInputRune`: the (unchanged) key, the
accept flag, and any prompt line set before returning — `some (t, e)` means
slot `t` was rendered against the validator error `e` and installed with
`rl.SetPrompt`. -/
structure FilterRes where
  key : Key
  accept : Bool
  setPrompt : Option (TTag × String)
deriving DecidableEq, Repr

/-- Lines 192-204 of prompt.go, the `FuncFilterInputRune` closure: on Enter
or Ctrl-J it runs `validFn` on the current value; on error it renders the
validation-error slot against the error, installs it as the prompt line and
rejects the key; otherwise it accepts the key. Every other key is accepted
untouched. -/
def funcFilterInputRune (p : Prompt) (curVal : String) (r : Key) : FilterRes :=
  match r with
  | .enter =>
    match p.validFn curVal with
    | some e => { key := r, accept := false, setPrompt := some (.validation, e) }
    | none => { key := r, accept := true, setPrompt := none }
  | .ctrlJ =>
    match p.validFn curVal with
    | some e => { key := r, accept := false, setPrompt := some (.validation, e) }
    | none => { key := r, accept := true, setPrompt := none }
  | .char c => { key := .char c, accept := true, setPrompt := none }

/-- Go's `strings.ToLower` (an external standard-library collaborator),
modelled as per-character lowering; the values the code compares against
("y", "n") are ASCII, where this agrees with Go. -/
def goToLower (s : String) : String := String.mk (s.data.map Char.toLower)

/-- Line 232 of prompt.go: the confirm-mode abort condition, after
lower-casing the configured default and the submitted answer. -/
def confirmAbort (deflt answer : String) : Bool :=
  let lowerDefault := goToLower deflt
  let inputLower := goToLower answer
  (lowerDefault == "y" && inputLower == "n") ||
    (lowerDefault != "y" && inputLower != "y")

/-- Lines 261-264 of prompt.go: the `[Y/n]` versus `[y/N]` hint embedded in
the built-in confirm template source. -/
def confirmHint (deflt : String) : String :=
  if goToLower deflt == "y" then "Y/n" else "y/N"

/-- Lines 154-157 of prompt.go: the initial cursor candidate — the configured
default, except in confirm mode, where it is empty. -/
def initialInput (p : Prompt) : String :=
  if p.IsConfirm then "" else p.Default

/-- Line 158 of prompt.go: erase-on-edit is set when the initial input is
non-empty and editing the default is not allowed. -/
def eraseDefault (p : Prompt) : Bool :=
  initialInput p != "" && !p.AllowEdit

/-- Modelled from the spec: the icon glyph constant used by built-in
templates (its definition lives in a repository file not under src/; the
spec only requires "an icon + bold styling markers"). -/
def IconInitial : String := "?"

/-- Modelled from the spec: the good-state icon glyph (not under src/). -/
def IconGood : String := "v"

/-- Modelled from the spec: the bad-state icon glyph (not under src/). -/
def IconBad : String := "x"

/-- Modelled from the spec: `Styler(FGBold)` wraps a string in bold styling
markers (styles live in a repository file not under src/). -/
def boldStyle (s : String) : String := "<b>" ++ s ++ "</b>"

/-- Modelled from the spec: `Styler(FGFaint)` wraps a string in faint styling
markers (styles live in a repository file not under src/). -/
def faintStyle (s : String) : String := "<f>" ++ s ++ "</f>"

/-- Line 265 of prompt.go: the built-in confirm template source, built from
the `[Y/n]`/`[y/N]` hint by `fmt.Sprintf`. -/
def defaultConfirmSrc (confirm : String) : String :=
  "\x7b\x7b \"" ++ IconInitial ++ "\" | bold \x7d\x7d \x7b\x7b . | bold \x7d\x7d? \x7b\x7b \"[" ++
    confirm ++ "]\" | faint \x7d\x7d "

/-- Line 276 of prompt.go: the built-in prompt template source. -/
def defaultPromptSrc : String :=
  boldStyle IconInitial ++ " \x7b\x7b . | bold \x7d\x7d" ++ boldStyle ":" ++ " "

/-- Line 288 of prompt.go: the built-in valid template source. -/
def defaultValidSrc : String :=
  boldStyle IconGood ++ " \x7b\x7b . | bold \x7d\x7d" ++ boldStyle ":" ++ " "

/-- Line 299 of prompt.go: the built-in unvalidated template source. -/
def defaultUnvalidatedSrc : String :=
  boldStyle IconInitial ++ " \x7b\x7b . | bold \x7d\x7d" ++ boldStyle ":" ++ " "

/-- Line 310 of prompt.go: the built-in invalid template source. -/
def defaultInvalidSrc : String :=
  boldStyle IconBad ++ " \x7b\x7b . | bold \x7d\x7d" ++ boldStyle ":" ++ " "

/-- Line 321 of prompt.go: the built-in validation-error template source. -/
def defaultValidationSrc : String :=
  "\x7b\x7b \">>\" | red \x7d\x7d \x7b\x7b . | red \x7d\x7d \x7b\x7b \"Press any key to get back to the prompt\" | faint \x7d\x7d"

/-- Line 332 of prompt.go: the built-in success template source. -/
def defaultSuccessSrc : String :=
  "\x7b\x7b . | faint \x7d\x7d" ++ faintStyle ":" ++ " "

/-- Early-exit sequencing of `prepareTemplates` blocks: a failed block
returns immediately with the template state it left behind (Go's
`if err != nil { return err }`), a successful block hands its state to the
next block. -/
def andThen (r : PromptTemplates × Option String)
    (f : PromptTemplates → PromptTemplates × Option String) :
    PromptTemplates × Option String :=
  match r with
  | (t, some e) => (t, some e)
  | (t, none) => f t

/-- Lines 259-285 of prompt.go: substitute the built-in Confirm source (with
the `[Y/n]`/`[y/N]` hint) or Prompt source when empty, compile it, and store
it in the `prompt` slot. -/
def fillConfirmOrPrompt (parse : ParseFn) (isConfirm : Bool) (deflt : String)
    (t0 : PromptTemplates) : PromptTemplates × Option String :=
  if isConfirm then
    let t := if t0.Confirm = "" then
        { t0 with Confirm := defaultConfirmSrc (confirmHint deflt) }
      else t0
    match parse t.Confirm with
    | .error e => (t, some e)
    | .ok tpl => ({ t with prompt := some tpl }, none)
  else
    let t := if t0.Prompt = "" then { t0 with Prompt := defaultPromptSrc } else t0
    match parse t.Prompt with
    | .error e => (t, some e)
    | .ok tpl => ({ t with prompt := some tpl }, none)

/-- Lines 287-296 of prompt.go: default, compile and store the Valid slot. -/
def fillValid (parse : ParseFn) (t0 : PromptTemplates) :
    PromptTemplates × Option String :=
  let t := if t0.Valid = "" then { t0 with Valid := defaultValidSrc } else t0
  match parse t.Valid with
  | .error e => (t, some e)
  | .ok tpl => ({ t with valid := some tpl }, none)

/-- Lines 298-307 of prompt.go: default, compile and store the Unvalidated
slot. -/
def fillUnvalidated (parse : ParseFn) (t0 : PromptTemplates) :
    PromptTemplates × Option String :=
  let t := if t0.Unvalidated = "" then { t0 with Unvalidated := defaultUnvalidatedSrc } else t0
  match parse t.Unvalidated with
  | .error e => (t, some e)
  | .ok tpl => ({ t with unvalidated := some tpl }, none)

/-- Lines 309-318 of prompt.go: default, compile and store the Invalid
slot. -/
def fillInvalid (parse : ParseFn) (t0 : PromptTemplates) :
    PromptTemplates × Option String :=
  let t := if t0.Invalid = "" then { t0 with Invalid := defaultInvalidSrc } else t0
  match parse t.Invalid with
  | .error e => (t, some e)
  | .ok tpl => ({ t with invalid := some tpl }, none)

/-- Lines 320-329 of prompt.go: default, compile and store the
ValidationError slot. -/
def fillValidationErr (parse : ParseFn) (t0 : PromptTemplates) :
    PromptTemplates × Option String :=
  let t := if t0.ValidationError = "" then { t0 with ValidationError := defaultValidationSrc } else t0
  match parse t.ValidationError with
  | .error e => (t, some e)
  | .ok tpl => ({ t with validation := some tpl }, none)

/-- Lines 331-340 of prompt.go: default, compile and store the Success
slot. -/
def fillSuccess (parse : ParseFn) (t0 : PromptTemplates) :
    PromptTemplates × Option String :=
  let t := if t0.Success = "" then { t0 with Success := defaultSuccessSrc } else t0
  match parse t.Success with
  | .error e => (t, some e)
  | .ok tpl => ({ t with success := some tpl }, none)

/-- Lines 253-340 of prompt.go: the body of `prepareTemplates` acting on the
(possibly shared) `PromptTemplates` value. Sets the default function map if
unset, then compiles the six slots in source order: confirm/prompt, valid,
unvalidated, invalid, validation-error, success, stopping at the first
compilation error. Returns the state at exit together with the error, if
any — updates made before a failing compile are part of the returned state,
mirroring in-place mutation of the Go struct. -/
def fillTpls (parse : ParseFn) (isConfirm : Bool) (deflt : String)
    (t0 : PromptTemplates) : PromptTemplates × Option String :=
  let t := if t0.FuncMap.isNone then { t0 with FuncMap := some defaultFuncMap } else t0
  andThen (fillConfirmOrPrompt parse isConfirm deflt t) fun t =>
  andThen (fillValid parse t) fun t =>
  andThen (fillUnvalidated parse t) fun t =>
  andThen (fillInvalid parse t) fun t =>
  andThen (fillValidationErr parse t) fun t =>
  fillSuccess parse t

/-- Lines 247-345 of prompt.go: `prepareTemplates` on a `Prompt`. In Go,
`Templates` is a pointer: when it is non-nil, `tpls := p.Templates` aliases
it, so updates made by the body are visible through `p.Templates` even when
a compile fails before the final `p.Templates = tpls` assignment; when it is
nil, a fresh struct is used and `p.Templates` is only assigned on success. -/
def prepareTemplatesGo (parse : ParseFn) (p : Prompt) : Prompt × Option String :=
  match p.Templates with
  | none =>
    let (t, e) := fillTpls parse p.IsConfirm p.Default {}
    match e with
    | some err => (p, some err)
    | none => ({ p with Templates := some t }, none)
  | some t0 =>
    let (t, e) := fillTpls parse p.IsConfirm p.Default t0
    ({ p with Templates := some t }, e)

/-- Engine errors surfaced by the blocking `rl.ReadLine()` call:
`readline.ErrInterrupt`, `io.EOF`, or any other error carrying a message. -/
inductive EngineErr where
  | interrupt
  | eof
  | other (msg : String)
deriving DecidableEq, Repr

/-- Errors a run may return, mirroring promptui's distinguished error values
plus verbatim propagation of configuration and engine-construction errors. -/
inductive PErr where
  | errInterrupt
  | errEOF
  | errAbort
  | config (msg : String)
  | engineInit (msg : String)
  | engineOther (msg : String)
deriving DecidableEq, Repr

/-- Lines 209-217 of prompt.go: mapping the engine error to the run's error —
`ErrInterrupt` for the interrupt error, `ErrEOF` for end-of-input, and the
defensive fallback converting any error whose message is literally
"Interrupt" into `ErrInterrupt`. -/
def mapReadErr : EngineErr → PErr
  | .interrupt => .errInterrupt
  | .eof => .errEOF
  | .other m => if m == "Interrupt" then .errInterrupt else .engineOther m

/-- Outcome of the engine's blocking read, abstracting the interactive
session: either the read completed (with the cursor's candidate string at
that point), or it ended with an engine error (with the candidate string the
buffer held at that time, which the code never reads). -/
inductive EngineRead where
  | ok (buf : String)
  | err (e : EngineErr) (bufAtErr : String)
deriving DecidableEq, Repr

/-- Raw terminal writes performed by `Run` through the engine. -/
inductive WriteData where
  | hideCursor
  | showCursor
  | newline
  | rendered (t : TTag) (echo : String)
deriving DecidableEq, Repr

/-- Externally visible interactions of one run with the engine/terminal. -/
inductive Event where
  | engineNew
  | write (w : WriteData)
  | close
deriving DecidableEq, Repr

/-- Modelled from the spec: the cursor's masked final value reconstructs a
string of mask characters equal in length to the candidate (`GetMask` lives
in cursor.go, which is not under src/). -/
def getMask (mask : Char) (s : String) : String :=
  String.mk (List.replicate s.length mask)

/-- Result of a run: the returned value and error, the final state of the
`Prompt` (whose `Templates` field `prepareTemplates` may have written), and
the trace of engine interactions. -/
structure RunRes where
  value : String
  error : Option PErr
  pOut : Prompt
  events : List Event

/-- Lines 123-245 of prompt.go: the control flow of `Prompt.Run`.

`parse` stands for the template engine, `engineNewErr` for a failure of
`readline.NewFromConfig` (`none` = construction succeeded), and `rd` for the
outcome of the blocking `rl.ReadLine()` call. Per-keystroke listener and
filter activity during the read is covered by `listenTag` and
`funcFilterInputRune`; the trace here records the construction, the raw
writes around the read, and whether `rl.Close()` ran. On a successful read
the success template is rendered with the (possibly masked) echo appended —
replaced by the invalid template (without echo) with `ErrAbort` when the
confirm-mode abort rule fires — and the final value returned is `cur.Get()`.

`runAfterNew` is the part of the flow after the engine was successfully
constructed (lines 145-244): the hide-cursor write, the blocking read with
its two exits, the final render/writes, and the close. -/
def runAfterNew (p' : Prompt) (rd : EngineRead) : RunRes :=
  match rd with
  | .err e _ =>
    { value := "", error := some (mapReadErr e), pOut := p',
      events := [.engineNew, .write .hideCursor] }
  | .ok buf =>
    let echo := if p'.Mask != Char.ofNat 0 then getMask p'.Mask buf else buf
    let finalWrite :=
      if p'.IsConfirm && confirmAbort p'.Default buf then
        WriteData.rendered .invalid ""
      else WriteData.rendered .success echo
    let err : Option PErr :=
      if p'.IsConfirm && confirmAbort p'.Default buf then some .errAbort else none
    { value := buf, error := err, pOut := p',
      events := [.engineNew, .write .hideCursor,
                 .write finalWrite, .write .newline, .write .showCursor, .close] }

def run (parse : ParseFn) (engineNewErr : Option String) (rd : EngineRead)
    (p : Prompt) : RunRes :=
  match prepareTemplatesGo parse p with
  | (p', some e) => { value := "", error := some (.config e), pOut := p', events := [] }
  | (p', none) =>
    match engineNewErr with
    | some e => { value := "", error := some (.engineInit e), pOut := p', events := [] }
    | none => runAfterNew p' rd

/-! ## Helper lemmas about the shapes of the embedded functions -/

/-- When `fillTpls` reports no error, all six compiled template slots have
been filled. -/
theorem andThen_ok (r : PromptTemplates × Option String)
    (f : PromptTemplates → PromptTemplates × Option String)
    (t : PromptTemplates) (h : andThen r f = (t, none)) :
    ∃ t1, r = (t1, none) ∧ f t1 = (t, none) := by
  rcases r with ⟨t1, _ | e⟩
  · exact ⟨t1, rfl, h⟩
  · simp [andThen] at h

/-- A successful confirm/prompt block fills the `prompt` slot and touches no
other compiled slot. -/
theorem fillConfirmOrPrompt_ok (parse : ParseFn) (c : Bool) (d : String)
    (t0 t : PromptTemplates) (h : fillConfirmOrPrompt parse c d t0 = (t, none)) :
    t.prompt.isSome ∧ t.valid = t0.valid ∧ t.unvalidated = t0.unvalidated ∧
      t.invalid = t0.invalid ∧ t.validation = t0.validation ∧
      t.success = t0.success := by
  unfold fillConfirmOrPrompt at h
  repeat' first
  | split at h
  | dsimp only at h
  all_goals injection h with h1 h2
  all_goals first
  | exact Option.noConfusion h2
  | (subst h1; simp)

/-- A successful valid block fills the `valid` slot and touches no other
compiled slot. -/
theorem fillValid_ok (parse : ParseFn) (t0 t : PromptTemplates)
    (h : fillValid parse t0 = (t, none)) :
    t.valid.isSome ∧ t.prompt = t0.prompt ∧ t.unvalidated = t0.unvalidated ∧
      t.invalid = t0.invalid ∧ t.validation = t0.validation ∧
      t.success = t0.success := by
  unfold fillValid at h
  repeat' first
  | split at h
  | dsimp only at h
  all_goals injection h with h1 h2
  all_goals first
  | exact Option.noConfusion h2
  | (subst h1; simp)

/-- A successful unvalidated block fills the `unvalidated` slot and touches
no other compiled slot. -/
theorem fillUnvalidated_ok (parse : ParseFn) (t0 t : PromptTemplates)
    (h : fillUnvalidated parse t0 = (t, none)) :
    t.unvalidated.isSome ∧ t.prompt = t0.prompt ∧ t.valid = t0.valid ∧
      t.invalid = t0.invalid ∧ t.validation = t0.validation ∧
      t.success = t0.success := by
  unfold fillUnvalidated at h
  repeat' first
  | split at h
  | dsimp only at h
  all_goals injection h with h1 h2
  all_goals first
  | exact Option.noConfusion h2
  | (subst h1; simp)

/-- A successful invalid block fills the `invalid` slot and touches no other
compiled slot. -/
theorem fillInvalid_ok (parse : ParseFn) (t0 t : PromptTemplates)
    (h : fillInvalid parse t0 = (t, none)) :
    t.invalid.isSome ∧ t.prompt = t0.prompt ∧ t.valid = t0.valid ∧
      t.unvalidated = t0.unvalidated ∧ t.validation = t0.validation ∧
      t.success = t0.success := by
  unfold fillInvalid at h
  repeat' first
  | split at h
  | dsimp only at h
  all_goals injection h with h1 h2
  all_goals first
  | exact Option.noConfusion h2
  | (subst h1; simp)

/-- A successful validation-error block fills the `validation` slot and
touches no other compiled slot. -/
theorem fillValidationErr_ok (parse : ParseFn) (t0 t : PromptTemplates)
    (h : fillValidationErr parse t0 = (t, none)) :
    t.validation.isSome ∧ t.prompt = t0.prompt ∧ t.valid = t0.valid ∧
      t.unvalidated = t0.unvalidated ∧ t.invalid = t0.invalid ∧
      t.success = t0.success := by
  unfold fillValidationErr at h
  repeat' first
  | split at h
  | dsimp only at h
  all_goals injection h with h1 h2
  all_goals first
  | exact Option.noConfusion h2
  | (subst h1; simp)

/-- A successful success block fills the `success` slot and touches no other
compiled slot. -/
theorem fillSuccess_ok (parse : ParseFn) (t0 t : PromptTemplates)
    (h : fillSuccess parse t0 = (t, none)) :
    t.success.isSome ∧ t.prompt = t0.prompt ∧ t.valid = t0.valid ∧
      t.unvalidated = t0.unvalidated ∧ t.invalid = t0.invalid ∧
      t.validation = t0.validation := by
  unfold fillSuccess at h
  repeat' first
  | split at h
  | dsimp only at h
  all_goals injection h with h1 h2
  all_goals first
  | exact Option.noConfusion h2
  | (subst h1; simp)

theorem fillTpls_ok_compiled (parse : ParseFn) (c : Bool) (d : String)
    (t0 t : PromptTemplates) (h : fillTpls parse c d t0 = (t, none)) :
    (t.prompt.isSome ∧ t.valid.isSome ∧ t.unvalidated.isSome ∧
     t.invalid.isSome ∧ t.validation.isSome ∧ t.success.isSome) := by
  unfold fillTpls at h
  dsimp only at h
  obtain ⟨t1, h1, h⟩ := andThen_ok _ _ _ h
  obtain ⟨t2, h2, h⟩ := andThen_ok _ _ _ h
  obtain ⟨t3, h3, h⟩ := andThen_ok _ _ _ h
  obtain ⟨t4, h4, h⟩ := andThen_ok _ _ _ h
  obtain ⟨t5, h5, h⟩ := andThen_ok _ _ _ h
  have g1 := fillConfirmOrPrompt_ok _ _ _ _ _ h1
  have g2 := fillValid_ok _ _ _ h2
  have g3 := fillUnvalidated_ok _ _ _ h3
  have g4 := fillInvalid_ok _ _ _ h4
  have g5 := fillValidationErr_ok _ _ _ h5
  have g6 := fillSuccess_ok _ _ _ h
  refine ⟨?_, ?_, ?_, ?_, ?_, ?_⟩ <;> simp_all

/-- `prepareTemplatesGo` changes no field of the prompt other than
`Templates`. -/
theorem prepare_fields_eq (parse : ParseFn) (p : Prompt) :
    ((prepareTemplatesGo parse p).1.Label = p.Label ∧
     (prepareTemplatesGo parse p).1.Default = p.Default ∧
     (prepareTemplatesGo parse p).1.AllowEdit = p.AllowEdit ∧
     (prepareTemplatesGo parse p).1.Validate = p.Validate ∧
     (prepareTemplatesGo parse p).1.Mask = p.Mask ∧
     (prepareTemplatesGo parse p).1.LazyValidation = p.LazyValidation ∧
     (prepareTemplatesGo parse p).1.IsConfirm = p.IsConfirm ∧
     (prepareTemplatesGo parse p).1.IsVimMode = p.IsVimMode ∧
     (prepareTemplatesGo parse p).1.Pointer = p.Pointer) := by
  unfold prepareTemplatesGo
  repeat' split
  all_goals simp_all

/-- Shape of a run whose template preparation fails. -/
theorem run_config_eq (parse : ParseFn) (ne : Option String) (rd : EngineRead)
    (p p' : Prompt) (e : String)
    (h : prepareTemplatesGo parse p = (p', some e)) :
    run parse ne rd p =
      { value := "", error := some (.config e), pOut := p', events := [] } := by
  unfold run
  rw [h]

/-- Shape of a run whose read ends with an engine error. -/
theorem run_err_eq (parse : ParseFn) (p p' : Prompt) (e : EngineErr) (b : String)
    (h : prepareTemplatesGo parse p = (p', none)) :
    run parse none (.err e b) p =
      { value := "", error := some (mapReadErr e), pOut := p',
        events := [.engineNew, .write .hideCursor] } := by
  unfold run
  rw [h]
  rfl

/-- Shape of a completed run on which the confirm-mode abort rule fires. -/
theorem run_ok_abort (parse : ParseFn) (p p' : Prompt) (buf : String)
    (h : prepareTemplatesGo parse p = (p', none))
    (hc : p'.IsConfirm = true) (ha : confirmAbort p'.Default buf = true) :
    run parse none (.ok buf) p =
      { value := buf, error := some .errAbort, pOut := p',
        events := [.engineNew, .write .hideCursor,
                   .write (.rendered .invalid ""), .write .newline,
                   .write .showCursor, .close] } := by
  unfold run
  rw [h]
  simp [runAfterNew, hc, ha]

/-- Shape of a completed run on which the confirm-mode abort rule does not
fire (including every non-confirm run). -/
theorem run_ok_accept (parse : ParseFn) (p p' : Prompt) (buf : String)
    (h : prepareTemplatesGo parse p = (p', none))
    (ha : (p'.IsConfirm && confirmAbort p'.Default buf) = false) :
    run parse none (.ok buf) p =
      { value := buf, error := none, pOut := p',
        events := [.engineNew, .write .hideCursor,
                   .write (.rendered .success
                     (if p'.Mask != Char.ofNat 0 then getMask p'.Mask buf else buf)),
                   .write .newline, .write .showCursor, .close] } := by
  unfold run
  rw [h]
  simp [runAfterNew, ha]

/-! ## Demo configurations used by concrete witnesses -/

/-- A validator rejecting the empty string, used for concrete witnesses. -/
def demoValidator : ValidateFunc :=
  fun s => if s = "" then some "empty input" else none

/-- A parse function that always succeeds, standing for a template engine on
well-formed sources. -/
def demoParse : ParseFn := fun s => Except.ok ⟨s⟩

/-- A parse function that always fails, standing for a malformed template
source. -/
def demoParseFail : ParseFn := fun _ => Except.error "bad template"

/-- An eagerly-validating prompt with the demo validator. -/
def pEager : Prompt := { Validate := some demoValidator }

/-- A lazily-validating prompt with the demo validator. -/
def pLazy : Prompt := { Validate := some demoValidator, LazyValidation := true }

/-- A default-configuration prompt. -/
def pPlain : Prompt := {}

/-- A confirm-mode prompt whose default is "y". -/
def pConfirmY : Prompt := { IsConfirm := true, Default := "y" }

/-! ## Claims -/

/-- C1: on Enter (or Ctrl-J) the key filter always runs the validator once on
the current value, independently of the lazy/eager mode flag; when the
validator errors, the key is rejected (the engine's read cannot complete on
it) and the prompt line is set to the validation-error template rendered
against the validator's error value; when the validator returns no error,
the key is accepted, letting the blocking read complete. -/
theorem enter_filter_always_validates (p : Prompt) (v : String) (k : Key)
    (hk : k = Key.enter ∨ k = Key.ctrlJ) :
    (∀ e, p.validFn v = some e →
        funcFilterInputRune p v k =
          { key := k, accept := false, setPrompt := some (TTag.validation, e) }) ∧
    (p.validFn v = none →
        funcFilterInputRune p v k = { key := k, accept := true, setPrompt := none }) ∧
    (∀ b, funcFilterInputRune { p with LazyValidation := b } v k =
        funcFilterInputRune p v k) := by
  rcases hk with rfl | rfl <;>
    exact ⟨fun e he => by simp [funcFilterInputRune, he],
           fun he => by simp [funcFilterInputRune, he],
           fun b => by simp [funcFilterInputRune, Prompt.validFn]⟩

theorem enter_filter_always_validates_witness :
    funcFilterInputRune pEager "" Key.enter =
      { key := .enter, accept := false,
        setPrompt := some (TTag.validation, "empty input") } :=
  (enter_filter_always_validates pEager "" Key.enter (Or.inl rfl)).1
    "empty input" rfl

/-- C3: with the lazy-validation flag set, the per-keystroke listener selects
the unvalidated template whatever the current value is and whatever the
validator would return on it. -/
theorem lazy_listener_unvalidated (p : Prompt) (h : p.LazyValidation = true)
    (v : String) : listenTag p v = TTag.unvalidated := by
  simp [listenTag, h]

theorem lazy_listener_unvalidated_witness :
    listenTag pLazy "" = TTag.unvalidated :=
  lazy_listener_unvalidated pLazy rfl ""

/-- C4: with eager validation, after each keystroke the listener runs the
validator on the current value and selects the invalid template on error and
the valid template otherwise — except that a valid value in confirm mode
selects the prompt/confirm template instead. -/
theorem eager_listener_matches_validator (p : Prompt)
    (h : p.LazyValidation = false) (v : String) :
    (∀ e, p.validFn v = some e → listenTag p v = TTag.invalid) ∧
    (p.validFn v = none →
      listenTag p v = if p.IsConfirm then TTag.prompt else TTag.valid) := by
  refine ⟨fun e he => ?_, fun he => ?_⟩ <;> simp [listenTag, h, he]

theorem eager_listener_matches_validator_witness :
    listenTag pEager "" = TTag.invalid ∧ listenTag pEager "abc" = TTag.valid :=
  ⟨(eager_listener_matches_validator pEager rfl "").1 "empty input" rfl,
   (eager_listener_matches_validator pEager rfl "abc").2 rfl⟩

/-- When template preparation reports no error its result is the pair of its
first component with `none`. -/
theorem prepare_pair (parse : ParseFn) (p : Prompt)
    (h : (prepareTemplatesGo parse p).2 = none) :
    prepareTemplatesGo parse p = ((prepareTemplatesGo parse p).1, none) := by
  rw [← h]

/-- The code's abort condition is false exactly on the spec's acceptance
combinations. -/
theorem confirmAbort_eq_false_iff (d a : String) :
    confirmAbort d a = false ↔
      ((goToLower d = "y" ∧ goToLower a ≠ "n") ∨
       (goToLower d ≠ "y" ∧ goToLower a = "y")) := by
  cases hd : (goToLower d == "y") <;> cases hn : (goToLower a == "n") <;>
    cases hy : (goToLower a == "y") <;> simp_all [confirmAbort]

/-- C2: a confirm-mode run with submitted answer `a` accepts (returns no
confirm-abort error) exactly when (lower default is "y" and lower answer is
not "n") or (lower default is not "y" and lower answer is "y"); every other
combination yields the confirm-abort error and renders the invalid template
in place of the success template. -/
theorem confirm_accept_iff (parse : ParseFn) (p : Prompt) (a : String)
    (hc : p.IsConfirm = true)
    (h : (prepareTemplatesGo parse p).2 = none) :
    ((run parse none (.ok a) p).error ≠ some PErr.errAbort ↔
      ((goToLower p.Default = "y" ∧ goToLower a ≠ "n") ∨
       (goToLower p.Default ≠ "y" ∧ goToLower a = "y"))) ∧
    (confirmAbort p.Default a = true →
      (run parse none (.ok a) p).error = some PErr.errAbort ∧
      Event.write (.rendered .invalid "") ∈ (run parse none (.ok a) p).events ∧
      ∀ echo, Event.write (.rendered .success echo) ∉ (run parse none (.ok a) p).events) := by
  have hpair := prepare_pair parse p h
  have hf := prepare_fields_eq parse p
  have hc' : (prepareTemplatesGo parse p).1.IsConfirm = true := by
    rw [hf.2.2.2.2.2.2.1, hc]
  have hd' : (prepareTemplatesGo parse p).1.Default = p.Default := hf.2.1
  cases hab : confirmAbort p.Default a with
  | true =>
    have habp : confirmAbort (prepareTemplatesGo parse p).1.Default a = true := by
      rw [hd']; exact hab
    rw [run_ok_abort parse p _ a hpair hc' habp]
    constructor
    · constructor
      · intro hne; exact absurd rfl hne
      · intro hr
        have hfalse : confirmAbort p.Default a = false :=
          (confirmAbort_eq_false_iff _ _).mpr hr
        rw [hab] at hfalse
        exact Bool.noConfusion hfalse
    · intro _
      refine ⟨rfl, by simp, fun echo hmem => ?_⟩
      simp at hmem
  | false =>
    have habp : ((prepareTemplatesGo parse p).1.IsConfirm &&
        confirmAbort (prepareTemplatesGo parse p).1.Default a) = false := by
      rw [hd', hab, Bool.and_false]
    rw [run_ok_accept parse p _ a hpair habp]
    constructor
    · exact ⟨fun _ => (confirmAbort_eq_false_iff _ _).mp hab, fun _ => by simp⟩
    · intro habt
      exact Bool.noConfusion habt

theorem confirm_accept_iff_witness :
    (run demoParse none (.ok "n") pConfirmY).error ≠ some PErr.errAbort ↔
      ((goToLower pConfirmY.Default = "y" ∧ goToLower "n" ≠ "n") ∨
       (goToLower pConfirmY.Default ≠ "y" ∧ goToLower "n" = "y")) :=
  (confirm_accept_iff demoParse pConfirmY "n" rfl rfl).1

/-- C5 counterexample: with default "y" and typed answer "n", the run
resolves to abort yet returns the typed answer "n" — not the empty string —
as its value. -/
theorem confirm_abort_value_not_empty :
    (run demoParse none (.ok "n") pConfirmY).error = some PErr.errAbort ∧
    (run demoParse none (.ok "n") pConfirmY).value = "n" ∧
    (run demoParse none (.ok "n") pConfirmY).value ≠ "" := by
  refine ⟨rfl, rfl, ?_⟩
  intro hcontra
  exact absurd (show ("n" : String) = "" from hcontra) (by decide)

/-- C5 (amended): a confirm-mode run that resolves to abort returns the
cursor's final buffer contents as its value — empty only when the user
submitted an empty buffer — together with the confirm-abort sentinel
error. -/
theorem confirm_abort_returns_buffer (parse : ParseFn) (p : Prompt)
    (buf : String) (h : (prepareTemplatesGo parse p).2 = none)
    (hc : p.IsConfirm = true) (hab : confirmAbort p.Default buf = true) :
    (run parse none (.ok buf) p).value = buf ∧
    (run parse none (.ok buf) p).error = some PErr.errAbort := by
  have hpair := prepare_pair parse p h
  have hf := prepare_fields_eq parse p
  have hc' : (prepareTemplatesGo parse p).1.IsConfirm = true := by
    rw [hf.2.2.2.2.2.2.1, hc]
  have habp : confirmAbort (prepareTemplatesGo parse p).1.Default buf = true := by
    rw [hf.2.1]; exact hab
  rw [run_ok_abort parse p _ buf hpair hc' habp]
  exact ⟨rfl, rfl⟩

theorem confirm_abort_returns_buffer_witness :
    (run demoParse none (.ok "n") pConfirmY).value = "n" ∧
    (run demoParse none (.ok "n") pConfirmY).error = some PErr.errAbort :=
  confirm_abort_returns_buffer demoParse pConfirmY "n" rfl rfl rfl

/-- C6: when the blocking read ends with the engine's interrupt error, Run
returns the empty string and the distinguished user-interrupt error; when it
ends with end-of-input, Run returns the empty string and the distinguished
end-of-input error — in both cases regardless of the buffer contents at the
time (`b` and `b'`). -/
theorem engine_error_returns_empty (parse : ParseFn) (p : Prompt)
    (b b' : String) (h : (prepareTemplatesGo parse p).2 = none) :
    ((run parse none (.err .interrupt b) p).value = "" ∧
     (run parse none (.err .interrupt b) p).error = some PErr.errInterrupt) ∧
    ((run parse none (.err .eof b') p).value = "" ∧
     (run parse none (.err .eof b') p).error = some PErr.errEOF) := by
  have hpair := prepare_pair parse p h
  rw [run_err_eq parse p _ .interrupt b hpair, run_err_eq parse p _ .eof b' hpair]
  exact ⟨⟨rfl, rfl⟩, ⟨rfl, rfl⟩⟩

theorem engine_error_returns_empty_witness :
    (run demoParse none (.err .interrupt "half-typed") pEager).value = "" ∧
    (run demoParse none (.err .interrupt "half-typed") pEager).error =
      some PErr.errInterrupt :=
  (engine_error_returns_empty demoParse pEager "half-typed" "" rfl).1

/-- A successful template preparation stores the fully-filled template set
in the prompt's `Templates` field. -/
theorem prepare_ok_templates (parse : ParseFn) (p p' : Prompt)
    (h : prepareTemplatesGo parse p = (p', none)) :
    ∃ t, p'.Templates = some t ∧
      fillTpls parse p.IsConfirm p.Default (p.Templates.getD {}) = (t, none) := by
  unfold prepareTemplatesGo at h
  cases hT : p.Templates with
  | none =>
    rw [hT] at h
    dsimp only at h
    rcases hf : fillTpls parse p.IsConfirm p.Default {} with ⟨t, e?⟩
    rw [hf] at h
    cases e? with
    | some err =>
      injection h with h1 h2
      exact Option.noConfusion h2
    | none =>
      injection h with h1 h2
      subst h1
      exact ⟨t, rfl, hf⟩
  | some t0 =>
    rw [hT] at h
    dsimp only at h
    rcases hf : fillTpls parse p.IsConfirm p.Default t0 with ⟨t, e?⟩
    rw [hf] at h
    dsimp only at h
    injection h with h1 h2
    subst h1
    subst h2
    exact ⟨t, rfl, hf⟩

/-- `runAfterNew` passes the prepared prompt through unchanged. -/
theorem runAfterNew_pOut (p' : Prompt) (rd : EngineRead) :
    (runAfterNew p' rd).pOut = p' := by
  cases rd <;> rfl

/-- The prompt state a run returns is exactly the state template preparation
left behind. -/
theorem run_pOut_eq (parse : ParseFn) (ne : Option String) (rd : EngineRead)
    (p : Prompt) :
    (run parse ne rd p).pOut = (prepareTemplatesGo parse p).1 := by
  unfold run
  rcases hp : prepareTemplatesGo parse p with ⟨p', e?⟩
  cases e? with
  | some e => rfl
  | none =>
    cases ne with
    | some e2 => rfl
    | none => cases rd <;> rfl

/-- C7: all six templates are compiled before the engine is constructed and
before any terminal write — a compilation failure makes Run return the empty
string and the compilation error with no engine construction and no terminal
interaction, and any run that did construct the engine holds six compiled
templates. -/
theorem templates_compiled_before_engine (parse : ParseFn) (ne : Option String)
    (rd : EngineRead) (p : Prompt) :
    (∀ e, (prepareTemplatesGo parse p).2 = some e →
        (run parse ne rd p).value = "" ∧
        (run parse ne rd p).error = some (PErr.config e) ∧
        (run parse ne rd p).events = []) ∧
    (Event.engineNew ∈ (run parse ne rd p).events →
        ∃ t, (run parse ne rd p).pOut.Templates = some t ∧
          t.prompt.isSome ∧ t.valid.isSome ∧ t.unvalidated.isSome ∧
          t.invalid.isSome ∧ t.validation.isSome ∧ t.success.isSome) := by
  constructor
  · intro e he
    have hpair : prepareTemplatesGo parse p = ((prepareTemplatesGo parse p).1, some e) := by
      rw [← he]
    rw [run_config_eq parse ne rd p _ e hpair]
    exact ⟨rfl, rfl, rfl⟩
  · intro hmem
    rcases hp : prepareTemplatesGo parse p with ⟨p', e?⟩
    cases e? with
    | some e =>
      rw [run_config_eq parse ne rd p p' e hp] at hmem
      simp at hmem
    | none =>
      obtain ⟨t, hts, htf⟩ := prepare_ok_templates parse p p' hp
      have hcomp := fillTpls_ok_compiled parse p.IsConfirm p.Default _ t htf
      refine ⟨t, ?_, hcomp.1, hcomp.2.1, hcomp.2.2.1, hcomp.2.2.2.1,
        hcomp.2.2.2.2.1, hcomp.2.2.2.2.2⟩
      rw [run_pOut_eq, hp]
      exact hts

theorem templates_compiled_before_engine_witness :
    (run demoParseFail none (.ok "x") pPlain).value = "" ∧
    (run demoParseFail none (.ok "x") pPlain).error =
      some (PErr.config "bad template") ∧
    (run demoParseFail none (.ok "x") pPlain).events = [] :=
  (templates_compiled_before_engine demoParseFail none (.ok "x") pPlain).1
    "bad template" rfl

/-- C8 counterexample: a run interrupted during editing constructed the
engine but never closed it — contradicting "the engine is closed on every
exit path". -/
theorem interrupt_leaves_engine_open :
    Event.engineNew ∈ (run demoParse none (.err .interrupt "abc") pPlain).events ∧
    Event.close ∉ (run demoParse none (.err .interrupt "abc") pPlain).events := by
  decide

/-- C8 (amended): the engine is closed before Run returns on every
completed-read path (success and confirm-abort), but on the engine-error
paths (interrupt and end-of-input) Run returns without closing the
engine. -/
theorem close_iff_read_completed (parse : ParseFn) (p : Prompt)
    (buf b : String) (e : EngineErr)
    (h : (prepareTemplatesGo parse p).2 = none) :
    Event.close ∈ (run parse none (.ok buf) p).events ∧
    Event.close ∉ (run parse none (.err e b) p).events := by
  have hpair := prepare_pair parse p h
  constructor
  · cases hab : ((prepareTemplatesGo parse p).1.IsConfirm &&
        confirmAbort (prepareTemplatesGo parse p).1.Default buf) with
    | false =>
      rw [run_ok_accept parse p _ buf hpair hab]
      simp
    | true =>
      have hab2 := hab
      simp only [Bool.and_eq_true] at hab2
      obtain ⟨hc', habt⟩ := hab2
      rw [run_ok_abort parse p _ buf hpair hc' habt]
      simp
  · rw [run_err_eq parse p _ e b hpair]
    simp

theorem close_iff_read_completed_witness :
    Event.close ∈ (run demoParse none (.ok "hello") pPlain).events ∧
    Event.close ∉ (run demoParse none (.err .eof "") pPlain).events :=
  close_iff_read_completed demoParse pPlain "hello" "" .eof rfl

/-- C9 counterexample: running a prompt whose `Templates` field is nil leaves
a non-nil `Templates` field behind — the configuration is not immutable. -/
theorem run_mutates_templates_field :
    pPlain.Templates = none ∧
    (run demoParse none (.ok "") pPlain).pOut.Templates ≠ pPlain.Templates := by
  refine ⟨rfl, fun hcontra => ?_⟩
  exact Option.noConfusion hcontra

/-- C9 (amended): a run leaves every configuration field of the prompt other
than `Templates` unchanged; `Templates` may be rewritten by template
preparation (defaults filled in, compiled templates stored). -/
theorem run_preserves_other_config_fields (parse : ParseFn) (ne : Option String)
    (rd : EngineRead) (p : Prompt) :
    (run parse ne rd p).pOut.Label = p.Label ∧
    (run parse ne rd p).pOut.Default = p.Default ∧
    (run parse ne rd p).pOut.AllowEdit = p.AllowEdit ∧
    (run parse ne rd p).pOut.Validate = p.Validate ∧
    (run parse ne rd p).pOut.Mask = p.Mask ∧
    (run parse ne rd p).pOut.LazyValidation = p.LazyValidation ∧
    (run parse ne rd p).pOut.IsConfirm = p.IsConfirm ∧
    (run parse ne rd p).pOut.IsVimMode = p.IsVimMode ∧
    (run parse ne rd p).pOut.Pointer = p.Pointer := by
  rw [run_pOut_eq parse ne rd p]
  exact prepare_fields_eq parse p

/-- The abort condition reads the default only through the single bit
"does it lower-case to y". -/
theorem confirmAbort_bit (d d' : String)
    (hbit : (goToLower d == "y") = (goToLower d' == "y")) (a : String) :
    confirmAbort d' a = confirmAbort d a := by
  unfold confirmAbort
  simp only [bne]
  rw [← hbit]

/-- The confirm hint reads the default only through the same bit. -/
theorem confirmHint_bit (d d' : String)
    (hbit : (goToLower d == "y") = (goToLower d' == "y")) :
    confirmHint d = confirmHint d' := by
  unfold confirmHint
  rw [hbit]

/-- The confirm/prompt compile block reads the default only through the
confirm hint. -/
theorem fillConfirmOrPrompt_hint (parse : ParseFn) (c : Bool) (d d' : String)
    (t : PromptTemplates) (hh : confirmHint d = confirmHint d') :
    fillConfirmOrPrompt parse c d t = fillConfirmOrPrompt parse c d' t := by
  unfold fillConfirmOrPrompt
  rw [hh]

/-- Template preparation reads the default only through the confirm hint. -/
theorem fillTpls_hint (parse : ParseFn) (c : Bool) (d d' : String)
    (t : PromptTemplates) (hh : confirmHint d = confirmHint d') :
    fillTpls parse c d t = fillTpls parse c d' t := by
  unfold fillTpls
  dsimp only
  rw [fillConfirmOrPrompt_hint parse c d d' _ hh]

/-- Shape of template preparation on a prompt with a nil `Templates` pointer
whose compilation fails. -/
theorem prepareTemplatesGo_none_err (parse : ParseFn) (p : Prompt)
    (t : PromptTemplates) (e : String) (hT : p.Templates = none)
    (hf : fillTpls parse p.IsConfirm p.Default {} = (t, some e)) :
    prepareTemplatesGo parse p = (p, some e) := by
  unfold prepareTemplatesGo
  rw [hT]
  dsimp only
  rw [hf]

/-- Shape of template preparation on a prompt with a nil `Templates` pointer
whose compilation succeeds. -/
theorem prepareTemplatesGo_none_ok (parse : ParseFn) (p : Prompt)
    (t : PromptTemplates) (hT : p.Templates = none)
    (hf : fillTpls parse p.IsConfirm p.Default {} = (t, none)) :
    prepareTemplatesGo parse p = ({ p with Templates := some t }, none) := by
  unfold prepareTemplatesGo
  rw [hT]
  dsimp only
  rw [hf]

/-- Shape of template preparation on a prompt with a non-nil `Templates`
pointer. -/
theorem prepareTemplatesGo_shape_some (parse : ParseFn) (p : Prompt)
    (t0 t : PromptTemplates) (e? : Option String) (hT : p.Templates = some t0)
    (hf : fillTpls parse p.IsConfirm p.Default t0 = (t, e?)) :
    prepareTemplatesGo parse p = ({ p with Templates := some t }, e?) := by
  unfold prepareTemplatesGo
  rw [hT]
  dsimp only
  rw [hf]

/-- Replacing the default with one that yields the same confirm hint shifts
template preparation by exactly that replacement. -/
theorem prepare_default_shift (parse : ParseFn) (p : Prompt) (d' : String)
    (hh : confirmHint p.Default = confirmHint d') :
    prepareTemplatesGo parse { p with Default := d' } =
      ({ (prepareTemplatesGo parse p).1 with Default := d' },
       (prepareTemplatesGo parse p).2) := by
  have hfs : ∀ t, fillTpls parse p.IsConfirm d' t =
      fillTpls parse p.IsConfirm p.Default t :=
    fun t => (fillTpls_hint parse p.IsConfirm p.Default d' t hh).symm
  cases hT : p.Templates with
  | none =>
    rcases hf : fillTpls parse p.IsConfirm p.Default {} with ⟨t, e?⟩
    cases e? with
    | some e =>
      have h1 := prepareTemplatesGo_none_err parse p t e hT hf
      have hf' : fillTpls parse ({ p with Default := d' } : Prompt).IsConfirm
          ({ p with Default := d' } : Prompt).Default {} = (t, some e) := by
        dsimp only
        rw [hfs]
        exact hf
      have h2 := prepareTemplatesGo_none_err parse { p with Default := d' }
        t e hT hf'
      rw [hT] at h2
      rw [h1, h2]
      dsimp only
      rw [hT]
    | none =>
      have h1 := prepareTemplatesGo_none_ok parse p t hT hf
      have hf' : fillTpls parse ({ p with Default := d' } : Prompt).IsConfirm
          ({ p with Default := d' } : Prompt).Default {} = (t, none) := by
        dsimp only
        rw [hfs]
        exact hf
      have h2 := prepareTemplatesGo_none_ok parse { p with Default := d' }
        t hT hf'
      rw [hT] at h2
      rw [h1, h2]
  | some t0 =>
    rcases hf : fillTpls parse p.IsConfirm p.Default t0 with ⟨t, e?⟩
    have h1 := prepareTemplatesGo_shape_some parse p t0 t e? hT hf
    have hf' : fillTpls parse ({ p with Default := d' } : Prompt).IsConfirm
        ({ p with Default := d' } : Prompt).Default t0 = (t, e?) := by
      dsimp only
      rw [hfs]
      exact hf
    have h2 := prepareTemplatesGo_shape_some parse { p with Default := d' }
      t0 t e? hT hf'
    rw [hT] at h2
    rw [h1, h2]

/-- After the engine is up, replacing the default with one on which the
abort rule agrees leaves the run's value, error and trace unchanged. -/
theorem runAfterNew_default_shift (q : Prompt) (d' : String) (rd : EngineRead)
    (hab : ∀ a, confirmAbort d' a = confirmAbort q.Default a) :
    (runAfterNew { q with Default := d' } rd).value = (runAfterNew q rd).value ∧
    (runAfterNew { q with Default := d' } rd).error = (runAfterNew q rd).error ∧
    (runAfterNew { q with Default := d' } rd).events = (runAfterNew q rd).events := by
  cases rd with
  | err e b => exact ⟨rfl, rfl, rfl⟩
  | ok buf =>
    unfold runAfterNew
    dsimp only
    rw [hab buf]
    exact ⟨rfl, rfl, rfl⟩

/-- A whole run reads the configured default (in confirm mode and out of it,
once the hint and abort agreement hold) only through the hint and abort
rule. -/
theorem run_default_shift (parse : ParseFn) (ne : Option String)
    (rd : EngineRead) (p : Prompt) (d' : String)
    (hbit : (goToLower p.Default == "y") = (goToLower d' == "y")) :
    (run parse ne rd { p with Default := d' }).value = (run parse ne rd p).value ∧
    (run parse ne rd { p with Default := d' }).error = (run parse ne rd p).error ∧
    (run parse ne rd { p with Default := d' }).events = (run parse ne rd p).events := by
  have hh : confirmHint p.Default = confirmHint d' := confirmHint_bit p.Default d' hbit
  have hshift := prepare_default_shift parse p d' hh
  unfold run
  rw [hshift]
  rcases hp : prepareTemplatesGo parse p with ⟨p1, e?⟩
  have hf := prepare_fields_eq parse p
  rw [hp] at hf
  cases e? with
  | some e => exact ⟨rfl, rfl, rfl⟩
  | none =>
    cases ne with
    | some e2 => exact ⟨rfl, rfl, rfl⟩
    | none =>
      have habit : (goToLower p1.Default == "y") = (goToLower d' == "y") := by
        have : p1.Default = p.Default := hf.2.1
        rw [this]
        exact hbit
      exact runAfterNew_default_shift p1 d' rd
        (fun a => confirmAbort_bit p1.Default d' habit a)

/-- C10: in confirm mode the cursor is initialized with the empty candidate
(the configured default text is never preloaded into the edit buffer) and
erase-on-edit false; the default influences only the abort rule and the
`[Y/n]`/`[y/N]` hint, both of which read it only through whether it
lower-cases to "y" — so two defaults agreeing on that bit give identical
runs. -/
theorem confirm_default_only_gates_and_hint (parse : ParseFn)
    (ne : Option String) (rd : EngineRead) (p : Prompt) (d' : String)
    (hc : p.IsConfirm = true)
    (hbit : (goToLower p.Default == "y") = (goToLower d' == "y")) :
    initialInput p = "" ∧ eraseDefault p = false ∧
    confirmHint p.Default = confirmHint d' ∧
    (run parse ne rd { p with Default := d' }).value = (run parse ne rd p).value ∧
    (run parse ne rd { p with Default := d' }).error = (run parse ne rd p).error ∧
    (run parse ne rd { p with Default := d' }).events = (run parse ne rd p).events := by
  have hrun := run_default_shift parse ne rd p d' hbit
  exact ⟨by simp [initialInput, hc], by simp [eraseDefault, initialInput, hc],
    confirmHint_bit p.Default d' hbit, hrun.1, hrun.2.1, hrun.2.2⟩

theorem confirm_default_only_gates_and_hint_witness :
    initialInput pConfirmY = "" ∧ eraseDefault pConfirmY = false ∧
    confirmHint pConfirmY.Default = confirmHint "Y" ∧
    (run demoParse none (.ok "y") { pConfirmY with Default := "Y" }).value =
      (run demoParse none (.ok "y") pConfirmY).value ∧
    (run demoParse none (.ok "y") { pConfirmY with Default := "Y" }).error =
      (run demoParse none (.ok "y") pConfirmY).error ∧
    (run demoParse none (.ok "y") { pConfirmY with Default := "Y" }).events =
      (run demoParse none (.ok "y") pConfirmY).events :=
  confirm_default_only_gates_and_hint demoParse none (.ok "y") pConfirmY "Y"
    rfl (by decide)

end Promptui
